import Mathlib

/-!
Shallow embedding of `src/snapcraft/parts/plugins/initrd_plugin.py`
(the snapcraft initrd plugin) and proofs about its behaviour.

The plugin consists of a validated properties record
(`InitrdPluginProperties`, with a pydantic root validator
`validate_pluging_options`) and a plugin class (`InitrdPlugin`) whose
query methods return the build snaps, build packages, build environment
and build commands handed to the build orchestrator.

Modelling conventions:
- Optional Python fields become `Option` values; Python truthiness of
  the values returned by `values.get(...)` is modelled by the
  `pyTruthy*` helpers (a string is truthy iff non-empty, a list iff
  non-empty, a bool iff `true`, and `None` is falsy).
- The validator raises `ValueError`; we model it as `Except` over an
  explicit error datatype, one constructor per `raise` site.
- `os.getuid()` is an ambient effect read at call time; it is passed to
  `get_build_packages` as an explicit `uid` argument.
- The external collaborator `_initrd_build.get_build_commands` is code
  of this repository that is not under `src/`; it is modelled as an
  abstract function argument `builder` from the record of keyword
  arguments that the source call site passes to it.
-/

/-- Python truthiness of an optional string (`values.get` result):
`None` and the empty string are falsy. -/
def pyTruthyStr : Option String → Bool
  | none => false
  | some s => s != ""

/-- Python truthiness of an optional list of strings:
`None` and the empty list are falsy. -/
def pyTruthyList : Option (List String) → Bool
  | none => false
  | some l => !l.isEmpty

/-- Python truthiness of an optional bool: `None` and `False` are falsy. -/
def pyTruthyBool : Option Bool → Bool
  | none => false
  | some b => b

/-- The part properties used by the Initrd plugin
(`InitrdPluginProperties` fields, with the source defaults:
`initrd_build_efi_image: Optional[bool] = False`, all other fields
defaulting to `None`). -/
structure InitrdPluginProperties where
  initrd_build_efi_image : Option Bool := some false
  initrd_efi_image_key : Option String := none
  initrd_efi_image_cert : Option String := none
  initrd_modules : Option (List String) := none
  initrd_configured_modules : Option (List String) := none
  initrd_firmware : Option (List String) := none
  initrd_compression : Option String := none
  initrd_compression_options : Option (List String) := none
  initrd_overlay : Option String := none
  initrd_addons : Option (List String) := none
deriving DecidableEq

/-- The two `ValueError` sites of `validate_pluging_options`. -/
inductive InitrdValidationError where
  | compressionOptionsRequireCompression
  | efiKeyCertRequireAll
deriving DecidableEq

/-- Embedding of the pydantic root validator
`InitrdPluginProperties.validate_pluging_options`: first checks that
truthy `initrd_compression_options` implies truthy `initrd_compression`,
then that a truthy EFI key or cert implies all of
`initrd_build_efi_image`, key and cert are truthy. -/
def validate_pluging_options (values : InitrdPluginProperties) :
    Except InitrdValidationError InitrdPluginProperties :=
  if pyTruthyList values.initrd_compression_options
      && !pyTruthyStr values.initrd_compression then
    .error .compressionOptionsRequireCompression
  else if (pyTruthyStr values.initrd_efi_image_key
        || pyTruthyStr values.initrd_efi_image_cert)
      && !(pyTruthyBool values.initrd_build_efi_image
        && pyTruthyStr values.initrd_efi_image_key
        && pyTruthyStr values.initrd_efi_image_cert) then
    .error .efiKeyCertRequireAll
  else
    .ok values

/-- The metadata the plugin reads from `part_info` / `project_info`:
the target architecture, the host architecture and the base. -/
structure PartInfo where
  target_arch : String
  host_arch : String
  base : String
deriving DecidableEq

/-- The `InitrdPlugin` state after `__init__`: the validated options and
the part metadata (from which `_target_arch`, `_cross_building` and
`_ubuntu_series` are derived). -/
structure InitrdPlugin where
  options : InitrdPluginProperties
  part_info : PartInfo
deriving DecidableEq

/-- `self._cross_building`: true iff the host architecture differs from
the target architecture. -/
def cross_building (p : InitrdPlugin) : Bool :=
  p.part_info.host_arch != p.part_info.target_arch

/-- `self._ubuntu_series`: "jammy" for base "core22", otherwise "noble". -/
def ubuntu_series (base : String) : String :=
  if base == "core22" then "jammy" else "noble"

/-- `InitrdPlugin.get_build_snaps`: always the empty set. -/
def get_build_snaps (_p : InitrdPlugin) : Finset String := ∅

/-- `InitrdPlugin.get_build_packages`: the base package set, plus the
architecture-qualified libfakechroot/libfakeroot packages when
cross-building and running as non-root (`os.getuid() != 0`, the uid
being passed explicitly here). -/
def get_build_packages (p : InitrdPlugin) (uid : Nat) : Finset String :=
  let build_packages : Finset String :=
    {"curl", "dracut-core", "fakechroot", "fakeroot"}
  if cross_building p && (uid != 0) then
    build_packages ∪
      {"libfakechroot:" ++ p.part_info.target_arch,
       "libfakeroot:" ++ p.part_info.target_arch}
  else
    build_packages

/-- `InitrdPlugin.get_build_environment`: the dict literal returned by
the source, in source order, as an association list. -/
def get_build_environment (p : InitrdPlugin) : List (String × String) :=
  [("UC_INITRD_ROOT_NAME", "uc-initramfs-build-root"),
   ("UC_INITRD_ROOT", "${CRAFT_PART_SRC}/${UC_INITRD_ROOT_NAME}"),
   ("KERNEL_MODULES", "${CRAFT_STAGE}/modules"),
   ("KERNEL_FIRMWARE", "${CRAFT_STAGE}/firmware"),
   ("UBUNTU_SERIES", ubuntu_series p.part_info.base),
   ("UBUNTU_CORE_BASE", p.part_info.base)]

/-- The keyword arguments the source call site of
`_initrd_build.get_build_commands` passes, one field per keyword. -/
structure InitrdBuildArgs where
  initrd_modules : Option (List String)
  initrd_configured_modules : Option (List String)
  initrd_compression : Option String
  initrd_compression_options : Option (List String)
  initrd_firmware : Option (List String)
  initrd_addons : Option (List String)
  initrd_overlay : Option String
  initrd_ko_use_workaround : Bool
  initrd_default_compression : String
  build_efi_image : Option Bool
  efi_image_key : Option String
  efi_image_cert : Option String
deriving DecidableEq

/-- The argument record built by `InitrdPlugin.get_build_commands` at
its call of `_initrd_build.get_build_commands`: the initrd property
fields of the options, plus the two constant arguments
`initrd_ko_use_workaround=False` and
`initrd_default_compression="zstd -1 -T0"`. -/
def mk_initrd_build_args (p : InitrdPlugin) : InitrdBuildArgs :=
  { initrd_modules := p.options.initrd_modules,
    initrd_configured_modules := p.options.initrd_configured_modules,
    initrd_compression := p.options.initrd_compression,
    initrd_compression_options := p.options.initrd_compression_options,
    initrd_firmware := p.options.initrd_firmware,
    initrd_addons := p.options.initrd_addons,
    initrd_overlay := p.options.initrd_overlay,
    initrd_ko_use_workaround := false,
    initrd_default_compression := "zstd -1 -T0",
    build_efi_image := p.options.initrd_build_efi_image,
    efi_image_key := p.options.initrd_efi_image_key,
    efi_image_cert := p.options.initrd_efi_image_cert }

/-- Modelled from the spec: `_initrd_build.get_build_commands` is
repository code not under `src/`; the spec treats it as an external
collaborator producing the ordered list of shell command strings.
`InitrdPlugin.get_build_commands` calls it with `mk_initrd_build_args`
and returns its result unchanged. -/
def get_build_commands (builder : InitrdBuildArgs → List String)
    (p : InitrdPlugin) : List String :=
  builder (mk_initrd_build_args p)

/-- `InitrdPlugin.get_out_of_source_build`: a classmethod returning the
constant `True`. -/
def get_out_of_source_build : Bool := true

/-! ## Helper lemmas -/

/-- A string shorter than `pre` is never `pre ++ a`. -/
theorem short_ne_append (s pre a : String) (h : s.length < pre.length) :
    s ≠ pre ++ a := by
  intro he
  have hl := congrArg String.length he
  rw [String.length_append] at hl
  omega

/-- Unfolding characterization of `get_build_packages`. -/
theorem get_build_packages_eq (p : InitrdPlugin) (uid : Nat) :
    get_build_packages p uid =
      if cross_building p && (uid != 0) then
        ({"curl", "dracut-core", "fakechroot", "fakeroot"} : Finset String) ∪
          {"libfakechroot:" ++ p.part_info.target_arch,
           "libfakeroot:" ++ p.part_info.target_arch}
      else {"curl", "dracut-core", "fakechroot", "fakeroot"} := rfl

/-- A string distinct from the four base packages and shorter than the
shortest cross-build package name is never returned by
`get_build_packages`. -/
theorem not_mem_build_packages_of_short (p : InitrdPlugin) (uid : Nat)
    (s : String) (h1 : s ≠ "curl") (h2 : s ≠ "dracut-core")
    (h3 : s ≠ "fakechroot") (h4 : s ≠ "fakeroot")
    (h5 : s.length < 12) : s ∉ get_build_packages p uid := by
  intro hmem
  rw [get_build_packages_eq] at hmem
  by_cases h : cross_building p && (uid != 0)
  · rw [if_pos h] at hmem
    rcases Finset.mem_union.1 hmem with hm | hm
    · simp only [Finset.mem_insert, Finset.mem_singleton] at hm
      rcases hm with h' | h' | h' | h' <;> contradiction
    · simp only [Finset.mem_insert, Finset.mem_singleton] at hm
      have l14 : ("libfakechroot:" : String).length = 14 := rfl
      have l12 : ("libfakeroot:" : String).length = 12 := rfl
      rcases hm with h' | h'
      · exact short_ne_append s "libfakechroot:" _ (by omega) h'
      · exact short_ne_append s "libfakeroot:" _ (by omega) h'
  · rw [if_neg h] at hmem
    simp only [Finset.mem_insert, Finset.mem_singleton] at hmem
    rcases hmem with h' | h' | h' | h' <;> contradiction

/-! ## Sample configurations used as concrete inputs -/

/-- A native (non-cross) plugin configured with lz4 compression. -/
def lz4Plugin : InitrdPlugin :=
  { options := { initrd_compression := some "lz4" },
    part_info := ⟨"amd64", "amd64", "core22"⟩ }

/-- Properties with only the EFI image key set. -/
def efiKeyOnlyProps : InitrdPluginProperties :=
  { initrd_efi_image_key := some "signing.key" }

/-- Properties with compression options set to the empty list and
compression unset. -/
def emptyOptsProps : InitrdPluginProperties :=
  { initrd_compression_options := some [] }

/-- Properties with the EFI image key set to the empty string. -/
def emptyKeyProps : InitrdPluginProperties :=
  { initrd_efi_image_key := some "" }

/-- Properties with the EFI image cert set to the empty string. -/
def emptyCertProps : InitrdPluginProperties :=
  { initrd_efi_image_cert := some "" }

/-- A native plugin with EFI image building enabled. -/
def efiPlugin : InitrdPlugin :=
  { options := { initrd_build_efi_image := some true,
                 initrd_efi_image_key := some "signing.key",
                 initrd_efi_image_cert := some "signing.pem" },
    part_info := ⟨"amd64", "amd64", "core22"⟩ }

/-- A cross-building plugin (host amd64, target arm64). -/
def crossPlugin : InitrdPlugin :=
  { options := {},
    part_info := ⟨"arm64", "amd64", "core24"⟩ }

/-- A plugin for the build-commands claims, native amd64 on core22. -/
def cmdPluginA : InitrdPlugin :=
  { options := { initrd_modules := some ["virtio_net"] },
    part_info := ⟨"amd64", "amd64", "core22"⟩ }

/-- Same options as `cmdPluginA` but entirely different part metadata. -/
def cmdPluginB : InitrdPlugin :=
  { options := { initrd_modules := some ["virtio_net"] },
    part_info := ⟨"arm64", "riscv64", "core24"⟩ }

/-! ## Claims -/

/-- Claim C1, counterexample: with `initrd_compression = "lz4"` the
returned package set is exactly the base set and contains no
compression tool package at all ("lz4", "xz-utils" and "zstd" are all
absent), refuting the claim that it contains exactly one compression
tool package selected by `initrd_compression`. -/
theorem get_build_packages_compression_tool_cex :
    lz4Plugin.options.initrd_compression = some "lz4" ∧
    get_build_packages lz4Plugin 0 =
      {"curl", "dracut-core", "fakechroot", "fakeroot"} ∧
    "lz4" ∉ get_build_packages lz4Plugin 0 ∧
    "xz-utils" ∉ get_build_packages lz4Plugin 0 ∧
    "zstd" ∉ get_build_packages lz4Plugin 0 := by decide

/-- Claim C1, amended: for every configuration and uid,
`get_build_packages` contains no compression tool package ("lz4",
"xz-utils", "zstd"), and its result is independent of the plugin
options (in particular of `initrd_compression`). -/
theorem get_build_packages_ignores_compression (p : InitrdPlugin)
    (uid : Nat) (o : InitrdPluginProperties) :
    "lz4" ∉ get_build_packages p uid ∧
    "xz-utils" ∉ get_build_packages p uid ∧
    "zstd" ∉ get_build_packages p uid ∧
    get_build_packages { p with options := o } uid =
      get_build_packages p uid := by
  refine ⟨?_, ?_, ?_, rfl⟩
  · exact not_mem_build_packages_of_short p uid "lz4"
      (by decide) (by decide) (by decide) (by decide) (by decide)
  · exact not_mem_build_packages_of_short p uid "xz-utils"
      (by decide) (by decide) (by decide) (by decide) (by decide)
  · exact not_mem_build_packages_of_short p uid "zstd"
      (by decide) (by decide) (by decide) (by decide) (by decide)

/-- Claim C2: whenever at least one of the EFI image key and cert is
set (to a truthy value, i.e. a non-empty string, as the validator tests
Python truthiness) and not all three of `initrd_build_efi_image`, key
and cert are set, `validate_pluging_options` fails with a validation
error. -/
theorem validate_efi_key_cert_requires_all (v : InitrdPluginProperties)
    (hset : pyTruthyStr v.initrd_efi_image_key = true ∨
      pyTruthyStr v.initrd_efi_image_cert = true)
    (hnotall : ¬(pyTruthyBool v.initrd_build_efi_image = true ∧
      pyTruthyStr v.initrd_efi_image_key = true ∧
      pyTruthyStr v.initrd_efi_image_cert = true)) :
    ∃ e, validate_pluging_options v = .error e := by
  unfold validate_pluging_options
  by_cases h1 : pyTruthyList v.initrd_compression_options
      && !pyTruthyStr v.initrd_compression
  · rw [if_pos h1]
    exact ⟨_, rfl⟩
  · rw [if_neg h1]
    have h2 : ((pyTruthyStr v.initrd_efi_image_key
        || pyTruthyStr v.initrd_efi_image_cert)
      && !(pyTruthyBool v.initrd_build_efi_image
        && pyTruthyStr v.initrd_efi_image_key
        && pyTruthyStr v.initrd_efi_image_cert)) = true := by
      simp only [Bool.and_eq_true, Bool.or_eq_true, Bool.not_eq_true']
      constructor
      · exact hset
      · by_contra hc
        rw [Bool.not_eq_false] at hc
        simp only [Bool.and_eq_true] at hc
        exact hnotall ⟨hc.1.1, hc.1.2, hc.2⟩
    rw [if_pos h2]
    exact ⟨_, rfl⟩

/-- Claim C2, witness: a configuration with only the EFI image key set
is rejected by the validator. -/
theorem validate_efi_key_cert_requires_all_witness :
    ∃ e, validate_pluging_options efiKeyOnlyProps = .error e :=
  validate_efi_key_cert_requires_all efiKeyOnlyProps (by decide) (by decide)

/-- Claim C3: `validate_pluging_options` fails with the
compression-options error exactly when `initrd_compression_options` is
set (truthy) while `initrd_compression` is unset (falsy); in every
other configuration this check does not fire. -/
theorem validate_compression_options_iff (v : InitrdPluginProperties) :
    validate_pluging_options v =
      .error .compressionOptionsRequireCompression ↔
    (pyTruthyList v.initrd_compression_options = true ∧
     pyTruthyStr v.initrd_compression = false) := by
  unfold validate_pluging_options
  by_cases h1 : pyTruthyList v.initrd_compression_options
      && !pyTruthyStr v.initrd_compression
  · rw [if_pos h1]
    simp only [Bool.and_eq_true, Bool.not_eq_true'] at h1
    simp [h1]
  · rw [if_neg h1]
    simp only [Bool.and_eq_true, Bool.not_eq_true'] at h1
    by_cases h2 : ((pyTruthyStr v.initrd_efi_image_key
        || pyTruthyStr v.initrd_efi_image_cert)
      && !(pyTruthyBool v.initrd_build_efi_image
        && pyTruthyStr v.initrd_efi_image_key
        && pyTruthyStr v.initrd_efi_image_cert)) = true
    · rw [if_pos h2]
      simp only [Except.error.injEq]
      constructor
      · intro he
        exact absurd he (by decide)
      · intro hc
        exact absurd hc (by tauto)
    · rw [if_neg h2]
      constructor
      · intro he
        exact absurd he (by simp)
      · intro hc
        exact absurd hc (by tauto)

/-- Claim C4, counterexample: with `initrd_build_efi_image = true` the
returned package set is exactly the base set and does not include
"llvm", refuting the claim that enabling EFI image building adds the
EFI toolchain package. -/
theorem get_build_packages_llvm_cex :
    efiPlugin.options.initrd_build_efi_image = some true ∧
    "llvm" ∉ get_build_packages efiPlugin 0 ∧
    get_build_packages efiPlugin 0 =
      {"curl", "dracut-core", "fakechroot", "fakeroot"} := by decide

/-- Claim C4, amended: for every configuration and uid,
`get_build_packages` never includes "llvm", and its result is
independent of the plugin options (in particular of
`initrd_build_efi_image`). -/
theorem get_build_packages_no_llvm (p : InitrdPlugin) (uid : Nat)
    (o : InitrdPluginProperties) :
    "llvm" ∉ get_build_packages p uid ∧
    get_build_packages { p with options := o } uid =
      get_build_packages p uid := by
  refine ⟨?_, rfl⟩
  exact not_mem_build_packages_of_short p uid "llvm"
    (by decide) (by decide) (by decide) (by decide) (by decide)

/-- Claim C5: when the host and target architectures differ and the uid
is non-zero, `get_build_packages` includes the architecture-qualified
libfakechroot/libfakeroot packages; when the architectures are equal or
the uid is 0, those packages are absent and the result is exactly the
base set (curl, dracut-core, fakechroot, fakeroot). -/
theorem get_build_packages_cross_building (p : InitrdPlugin) (uid : Nat) :
    (p.part_info.host_arch ≠ p.part_info.target_arch → uid ≠ 0 →
      "libfakechroot:" ++ p.part_info.target_arch ∈ get_build_packages p uid ∧
      "libfakeroot:" ++ p.part_info.target_arch ∈ get_build_packages p uid) ∧
    (p.part_info.host_arch = p.part_info.target_arch ∨ uid = 0 →
      get_build_packages p uid =
        {"curl", "dracut-core", "fakechroot", "fakeroot"} ∧
      "libfakechroot:" ++ p.part_info.target_arch ∉ get_build_packages p uid ∧
      "libfakeroot:" ++ p.part_info.target_arch ∉ get_build_packages p uid) := by
  constructor
  · intro hcross huid
    have hcond : (cross_building p && (uid != 0)) = true := by
      simp [cross_building, bne_iff_ne, hcross, huid]
    rw [get_build_packages_eq, if_pos hcond]
    constructor
    · exact Finset.mem_union_right _ (Finset.mem_insert_self _ _)
    · exact Finset.mem_union_right _
        (Finset.mem_insert_of_mem (Finset.mem_singleton_self _))
  · intro hsame
    have hcond : (cross_building p && (uid != 0)) = false := by
      rcases hsame with h | h
      · simp [cross_building, h]
      · simp [h]
    have heq : get_build_packages p uid =
        {"curl", "dracut-core", "fakechroot", "fakeroot"} := by
      rw [get_build_packages_eq, hcond]
      simp
    refine ⟨heq, ?_, ?_⟩
    · rw [heq]
      intro hm
      simp only [Finset.mem_insert, Finset.mem_singleton] at hm
      rcases hm with h' | h' | h' | h' <;>
        exact short_ne_append _ "libfakechroot:" _ (by decide) h'.symm
    · rw [heq]
      intro hm
      simp only [Finset.mem_insert, Finset.mem_singleton] at hm
      rcases hm with h' | h' | h' | h' <;>
        exact short_ne_append _ "libfakeroot:" _ (by decide) h'.symm

/-- Claim C5, witness: cross-building from amd64 to arm64 as uid 1000
includes both architecture-qualified packages. -/
theorem get_build_packages_cross_building_witness :
    "libfakechroot:" ++ "arm64" ∈ get_build_packages crossPlugin 1000 ∧
    "libfakeroot:" ++ "arm64" ∈ get_build_packages crossPlugin 1000 :=
  (get_build_packages_cross_building crossPlugin 1000).1
    (by decide) (by decide)

/-- Claim C6, counterexample: two plugins with the same options but
different part metadata (target architecture in particular) build the
same argument record for the collaborator call, refuting the claim that
`get_build_commands` forwards derived metadata including the target
architecture. -/
theorem get_build_commands_target_arch_cex :
    cmdPluginA.part_info.target_arch ≠ cmdPluginB.part_info.target_arch ∧
    mk_initrd_build_args cmdPluginA = mk_initrd_build_args cmdPluginB := by
  refine ⟨by decide, rfl⟩

/-- Claim C6, amended: `get_build_commands` returns exactly the
collaborator result applied to the initrd property fields plus the two
constant arguments (workaround flag false, default compression
"zstd -1 -T0"), with no other transformation; the result is independent
of the part metadata. -/
theorem get_build_commands_delegates (builder : InitrdBuildArgs → List String)
    (p : InitrdPlugin) (q : PartInfo) :
    get_build_commands builder p =
      builder { initrd_modules := p.options.initrd_modules,
                initrd_configured_modules := p.options.initrd_configured_modules,
                initrd_compression := p.options.initrd_compression,
                initrd_compression_options := p.options.initrd_compression_options,
                initrd_firmware := p.options.initrd_firmware,
                initrd_addons := p.options.initrd_addons,
                initrd_overlay := p.options.initrd_overlay,
                initrd_ko_use_workaround := false,
                initrd_default_compression := "zstd -1 -T0",
                build_efi_image := p.options.initrd_build_efi_image,
                efi_image_key := p.options.initrd_efi_image_key,
                efi_image_cert := p.options.initrd_efi_image_cert } ∧
    get_build_commands builder { p with part_info := q } =
      get_build_commands builder p :=
  ⟨rfl, rfl⟩

/-- Claim C7: `get_build_snaps` returns the empty set for every
configuration and part metadata. -/
theorem get_build_snaps_empty (p : InitrdPlugin) : get_build_snaps p = ∅ := rfl

/-- Claim C8: `get_out_of_source_build` returns true for every
invocation, independent of configuration and part metadata (in the
source it is a classmethod taking no per-instance data). -/
theorem get_out_of_source_build_always_true :
    get_out_of_source_build = true := rfl

/-- Claim C9: the validations test truthiness, not presence:
compression options set to the empty list with compression unset is
accepted, and an EFI key or cert set to the empty string does not
trigger the EFI cross-field validation error. -/
theorem validate_truthiness_not_presence :
    emptyOptsProps.initrd_compression_options = some [] ∧
    emptyOptsProps.initrd_compression = none ∧
    validate_pluging_options emptyOptsProps = .ok emptyOptsProps ∧
    emptyKeyProps.initrd_efi_image_key = some "" ∧
    validate_pluging_options emptyKeyProps = .ok emptyKeyProps ∧
    emptyCertProps.initrd_efi_image_cert = some "" ∧
    validate_pluging_options emptyCertProps = .ok emptyCertProps := by
  refine ⟨rfl, rfl, rfl, rfl, rfl, rfl, rfl⟩

/-- Claim C10: `get_build_environment` maps UBUNTU_SERIES to "jammy"
exactly when the base is "core22" and to "noble" otherwise, maps
UBUNTU_CORE_BASE to the base itself, maps the remaining four entries to
fixed literal strings, and is independent of the options and the
architectures (it depends only on the base). -/
theorem get_build_environment_entries (p : InitrdPlugin) :
    List.lookup "UBUNTU_SERIES" (get_build_environment p) =
      some (if p.part_info.base = "core22" then "jammy" else "noble") ∧
    List.lookup "UBUNTU_CORE_BASE" (get_build_environment p) =
      some p.part_info.base ∧
    List.lookup "UC_INITRD_ROOT_NAME" (get_build_environment p) =
      some "uc-initramfs-build-root" ∧
    List.lookup "UC_INITRD_ROOT" (get_build_environment p) =
      some "${CRAFT_PART_SRC}/${UC_INITRD_ROOT_NAME}" ∧
    List.lookup "KERNEL_MODULES" (get_build_environment p) =
      some "${CRAFT_STAGE}/modules" ∧
    List.lookup "KERNEL_FIRMWARE" (get_build_environment p) =
      some "${CRAFT_STAGE}/firmware" ∧
    get_build_environment p =
      get_build_environment
        { options := {}, part_info := ⟨"", "", p.part_info.base⟩ } := by
  refine ⟨?_, ?_, ?_, ?_, ?_, ?_, rfl⟩
  · by_cases h : p.part_info.base = "core22" <;>
      simp [get_build_environment, List.lookup, ubuntu_series, h]
  all_goals simp [get_build_environment, List.lookup]
